import Mathlib

/-
  Verification of the interview-processing workflow of the ai-interviews
  repository against its natural-language specification.

  Shallow embedding conventions:
  * Python exceptions that are subclasses of Exception are modelled by the
    inductive type PyExc below.  BaseException-level interrupts
    (KeyboardInterrupt, SystemExit), which no except-Exception clause
    catches, are outside the model, matching the reading of the except
    clauses of the source.
  * External AWS services (DynamoDB, SQS, Transcribe, Bedrock, S3) and the
    media pipeline are modelled by oracles: each boto call is a field of an
    environment record giving the call result, either a value or a raised
    exception.
  * Observable effects (record-store calls, queue calls, service calls,
    backoff sleeps) are collected in a trace of type List Eff.
  * Python float arithmetic on the backoff delays is modelled by exact
    rationals; the values computed by the program (1.0 * 2 ** k and 60.0)
    are exactly representable, so no rounding is lost.
-/

namespace AIInterviews

/-- Python exceptions (the Exception hierarchy), as classified by the
except clauses of error_handling.py, interview_workflow.py,
dynamodb_handler.py, sqs_handler.py and audio_transcriber.py. -/
inductive PyExc where
  /-- botocore.exceptions.ClientError carrying response.Error.Code -/
  | clientError (code : String) (msg : String)
  /-- botocore.exceptions.BotoCoreError (no response attribute) -/
  | botoCoreError (msg : String)
  /-- error_handling.ValidationError (subclass of InterviewProcessingError) -/
  | validationError (msg : String)
  /-- error_handling.AWSServiceError (subclass of InterviewProcessingError) -/
  | awsServiceError (msg : String)
  /-- error_handling.VideoProcessingError (subclass of InterviewProcessingError) -/
  | videoProcessingError (msg : String)
  /-- error_handling.InterviewProcessingError (the base class itself) -/
  | interviewProcessingError (msg : String)
  /-- builtin TypeError -/
  | typeError (msg : String)
  /-- builtin TimeoutError -/
  | timeoutError (msg : String)
  /-- builtin ValueError -/
  | valueError (msg : String)
  /-- any other Exception subclass (e.g. a bare Exception) -/
  | otherError (msg : String)
deriving DecidableEq

/-- The message text of an exception, str(e). -/
def PyExc.msg : PyExc → String
  | .clientError _ m => m
  | .botoCoreError m => m
  | .validationError m => m
  | .awsServiceError m => m
  | .videoProcessingError m => m
  | .interviewProcessingError m => m
  | .typeError m => m
  | .timeoutError m => m
  | .valueError m => m
  | .otherError m => m

/-- Membership in the except (ClientError, BotoCoreError) clauses. -/
def PyExc.isBoto : PyExc → Bool
  | .clientError _ _ => true
  | .botoCoreError _ => true
  | _ => false

/-- getattr(e, then response/Error/Code lookup, default Unknown): ClientError
carries its code, BotoCoreError has no response attribute. -/
def PyExc.botoCode : PyExc → String
  | .clientError c _ => c
  | _ => "Unknown"

/-- Membership in the except InterviewProcessingError clause (the class and
its three subclasses). -/
def PyExc.isInterviewProcessing : PyExc → Bool
  | .validationError _ => true
  | .awsServiceError _ => true
  | .videoProcessingError _ => true
  | .interviewProcessingError _ => true
  | _ => false

/-- The error codes that retry_with_backoff never retries
(error_handling.py line 51). -/
def nonRetryableCodes : List String := ["AccessDenied", "InvalidParameterValue", "ValidationException"]

/-- Observable effects of a workflow run: boto calls against the record
store and the queue, invocations of the media pipeline, the transcription
service and the generative model, and backoff sleeps. -/
inductive Eff where
  /-- dynamodb get_item on the interviews table -/
  | recGet
  /-- dynamodb update_item on the interviews table setting the given state -/
  | recUpdate (state : String)
  /-- dynamodb batch_write_item with the given number of put requests -/
  | recBatchWrite (items : Nat)
  /-- sqs change_message_visibility with the given timeout -/
  | qVisibility (seconds : Nat)
  /-- sqs delete_message -/
  | qDelete
  /-- invocation of the message-processing callback by the run loop -/
  | cbCall
  /-- video_processor.process_video on the given reference -/
  | callVideo (uri : String)
  /-- audio_transcriber.transcribe_audio -/
  | callTranscribe
  /-- bedrock invoke_model for question extraction -/
  | callBedrockExtract
  /-- bedrock invoke_model generating the answer of question number i -/
  | callBedrockAnswer (i : Nat)
  /-- time.sleep of a backoff delay inside retry_with_backoff -/
  | sleep (d : ℚ)
  /-- time.sleep(5) of the outer poll-loop except clause -/
  | loopSleep
deriving DecidableEq

/-! ### Python string primitives used by the embedded code -/

/-- The characters str.strip() removes (ASCII whitespace; unicode
whitespace beyond ASCII is not modelled). -/
def pyWs (c : Char) : Bool :=
  c = ' ' ∨ c = '\t' ∨ c = '\n' ∨ c = '\r' ∨ c = '\x0b' ∨ c = '\x0c'

/-- str.strip() with no argument. -/
def pyStrip (s : String) : String :=
  String.mk (((s.toList.dropWhile pyWs).reverse.dropWhile pyWs).reverse)

/-- str.find of a single character: first index, or -1 when absent. -/
def pyFind (s : String) (c : Char) : Int :=
  match s.toList.indexOf? c with
  | some i => (i : Int)
  | none => -1

/-- str.rfind of a single character: last index, or -1 when absent. -/
def pyRFind (s : String) (c : Char) : Int :=
  match s.toList.reverse.indexOf? c with
  | some i => ((s.toList.length - 1 - i : Nat) : Int)
  | none => -1

/-- The slice s[a:b]. -/
def pySlice (s : String) (a b : Nat) : String :=
  String.mk ((s.toList.drop a).take (b - a))

/-- str.startswith. -/
def pyStartsWith (s pre : String) : Bool :=
  pre.toList.isPrefixOf s.toList

/-- Replacement of the non-overlapping occurrences of pat, left to right
(str.replace).  The fuel argument is the length of the remaining input;
each step consumes at least one character, so the fuel never runs out. -/
def pyReplaceGo (pat rep : List Char) : Nat → List Char → List Char
  | 0, l => l
  | fuel + 1, l =>
    match l with
    | [] => []
    | c :: cs =>
      if pat.isPrefixOf (c :: cs) then rep ++ pyReplaceGo pat rep fuel ((c :: cs).drop pat.length)
      else c :: pyReplaceGo pat rep fuel cs

/-- str.replace for a non-empty pattern (the only form the embedded code
uses; the empty-pattern insertion semantics of Python is not needed). -/
def pyReplace (s pat rep : String) : String :=
  if pat.toList.isEmpty then s
  else String.mk (pyReplaceGo pat.toList rep.toList s.toList.length s.toList)

/-! ### UUID validation (error_handling.validate_uuid, lines 105-128)

The underlying parser is the stdlib uuid.UUID constructor, modelled at its
interface: the string normalisation it documents (drop urn: and uuid:
markers, strip surrounding braces, drop hyphens) followed by the demand
for exactly 32 hexadecimal digits.  The exotic forms that int(s, 16) also
accepts (signs, 0x prefixes, underscores, inner whitespace) are not
modelled; they are a property of the external stdlib, and no claim below
depends on the exact boundary of acceptance. -/

/-- Leading and trailing brace stripping, str.strip of the two brace
characters. -/
def stripBraces (s : String) : String :=
  let isBrace : Char → Bool := fun c => c = '\x7b' ∨ c = '\x7d'
  String.mk (((s.toList.dropWhile isBrace).reverse.dropWhile isBrace).reverse)

/-- uuid.UUID string acceptance, modelled as described above. -/
def pyUuidOk (s : String) : Bool :=
  let hex := String.mk ((stripBraces (pyReplace (pyReplace s "urn:" "") "uuid:" "")).toList.filter (fun c => c ≠ '-'))
  hex.toList.length = 32 ∧ hex.toList.all (fun c => c.isDigit ∨ ('a' ≤ c ∧ c ≤ 'f') ∨ ('A' ≤ c ∧ c ≤ 'F'))

/-- error_handling.validate_uuid.  The isinstance check is subsumed by the
modelling of the value as a String; the emptiness check is the Python
truthiness test. -/
def validate_uuid (value : String) (field_name : String) : Except PyExc String :=
  if value = "" then
    .error (.validationError (field_name ++ " must be a non-empty string"))
  else if pyUuidOk value then
    .ok value
  else
    .error (.validationError (field_name ++ " must be a valid UUID: " ++ value))

/-- error_handling.validate_s3_path, lines 130-151. -/
def validate_s3_path (path : String) (field_name : String) : Except PyExc String :=
  if path = "" then
    .error (.validationError (field_name ++ " must be a non-empty string"))
  else if pyStartsWith path "s3://" ∨ pyStartsWith path "videos/" then
    .ok path
  else
    .error (.validationError (field_name ++ " must be a valid S3 path or video key: " ++ path))

/-- The interview record fetched from DynamoDB, projected onto the fields
the workflow reads.  A field is none when the attribute is absent from the
item; state and the remaining attributes are never read by the workflow
and are omitted. -/
structure InterviewRecord where
  id : Option String
  video_path : Option String
  user_id : Option String
  interview_type : Option String
  programming_language : Option String
deriving DecidableEq

/-- Python truthiness of an optional string-valued dict entry, as tested
by interview.get(field). -/
def truthyOptStr : Option String → Bool
  | none => false
  | some s => s ≠ ""

/-- error_handling.validate_interview_data, lines 153-180.  The
non-dictionary case cannot arise: get_interview_by_id only hands over a
converted item. -/
def validate_interview_data (itv : InterviewRecord) : Except PyExc InterviewRecord :=
  if ¬ (truthyOptStr itv.id ∧ truthyOptStr itv.video_path ∧ truthyOptStr itv.user_id) then
    .error (.validationError "Interview missing required fields")
  else
    match validate_uuid (itv.id.getD "") "Interview ID" with
    | .error e => .error e
    | .ok _ =>
      match validate_uuid (itv.user_id.getD "") "User ID" with
      | .error e => .error e
      | .ok _ =>
        match validate_s3_path (itv.video_path.getD "") "Video path" with
        | .error e => .error e
        | .ok _ => .ok itv

/-! ### Retry utility (error_handling.retry_with_backoff, lines 29-77)

The wrapped operation is a function of the attempt index giving that
attempt's outcome and trace; the combinator returns the final outcome, the
number of attempts performed, and the concatenated trace with the backoff
sleeps interleaved.  The loop for attempt in range(max_retries + 1) is
embedded with remaining = max_retries - attempt as the structural fuel,
so the source condition attempt < max_retries is remaining > 0.  The dead
raise last_exception after the loop is unreachable (the last iteration
always returns or raises) and has no counterpart. -/

/-- One backoff delay, min(base_delay * 2 ** attempt, max_delay). -/
def backoffDelay (base maxD : ℚ) (attempt : Nat) : ℚ :=
  min (base * 2 ^ attempt) maxD

/-- The classified error raised on a non-retryable AWS error code. -/
def nonRetryableRaise (e : PyExc) : PyExc :=
  .awsServiceError ("AWS service error: " ++ e.msg)

/-- The classified error raised when retries on an AWS error are
exhausted; it carries the retry count. -/
def exhaustedRaise (maxR : Nat) (e : PyExc) : PyExc :=
  .awsServiceError ("AWS service error after " ++ toString maxR ++ " retries: " ++ e.msg)

/-- The loop body of retry_with_backoff. -/
def retry_go (op : Nat → Except PyExc α × List Eff) (base maxD : ℚ) (maxR : Nat) :
    Nat → Nat → Except PyExc α × Nat × List Eff
  | 0, attempt =>
    match op attempt with
    | (.ok v, t) => (.ok v, attempt + 1, t)
    | (.error e, t) =>
      if e.isBoto then
        if e.botoCode ∈ nonRetryableCodes then (.error (nonRetryableRaise e), attempt + 1, t)
        else (.error (exhaustedRaise maxR e), attempt + 1, t)
      else (.error e, attempt + 1, t)
  | (r + 1), attempt =>
    match op attempt with
    | (.ok v, t) => (.ok v, attempt + 1, t)
    | (.error e, t) =>
      if e.isBoto then
        if e.botoCode ∈ nonRetryableCodes then (.error (nonRetryableRaise e), attempt + 1, t)
        else
          match retry_go op base maxD maxR r (attempt + 1) with
          | (res, n, t2) => (res, n, t ++ [Eff.sleep (backoffDelay base maxD attempt)] ++ t2)
      else
        match retry_go op base maxD maxR r (attempt + 1) with
        | (res, n, t2) => (res, n, t ++ [Eff.sleep (backoffDelay base maxD attempt)] ++ t2)

/-- error_handling.retry_with_backoff applied to an operation. -/
def retry_with_backoff (op : Nat → Except PyExc α × List Eff) (maxR : Nat) (base maxD : ℚ) :
    Except PyExc α × Nat × List Eff :=
  retry_go op base maxD maxR maxR 0

/-- A pure fallible operation with no effects of its own, the shape of a
directly wrapped service call. -/
def pureOp (f : Nat → Except PyExc α) : Nat → Except PyExc α × List Eff :=
  fun i => (f i, [])

/-! ### JSON values (the output of the stdlib json.loads)

json.loads itself is external; everywhere the repository calls it, the
embedding takes a parse oracle String → Option PyJson (none modelling a
raised json.JSONDecodeError) and operates on the resulting value with the
Python semantics of the operations the source applies to it. -/

/-- A decoded JSON value.  Numbers are modelled as integers; no embedded
code path inspects numeric values. -/
inductive PyJson where
  | null
  | bool (b : Bool)
  | num (n : Int)
  | str (s : String)
  | arr (xs : List PyJson)
  | obj (kvs : List (String × PyJson))

/-- Python truthiness of a decoded JSON value. -/
def PyJson.truthy : PyJson → Bool
  | .null => false
  | .bool b => b
  | .num n => n ≠ 0
  | .str s => s ≠ ""
  | .arr xs => !xs.isEmpty
  | .obj kvs => !kvs.isEmpty

/-- The Python equality test v == k against a string k: only an equal
string compares equal. -/
def PyJson.eqStr (v : PyJson) (k : String) : Bool :=
  match v with
  | .str s => s = k
  | _ => false

/-- The Python membership test k in v for a string k: key membership for
dicts, element membership for lists, substring membership for strings,
TypeError for the rest. -/
def PyJson.hasMember (v : PyJson) (k : String) : Except PyExc Bool :=
  match v with
  | .obj kvs => .ok (kvs.any (fun p => p.1 = k))
  | .arr xs => .ok (xs.any (fun x => x.eqStr k))
  | .str s => .ok (decide (List.IsInfix k.toList s.toList))
  | _ => .error (.typeError "argument of type is not iterable")

/-- The Python subscript v[k] for a string k: dict lookup for dicts
(KeyError when absent), TypeError for everything else. -/
def PyJson.subscript (v : PyJson) (k : String) : Except PyExc PyJson :=
  match v with
  | .obj kvs =>
    match kvs.lookup k with
    | some x => .ok x
    | none => .error (.otherError ("KeyError: " ++ k))
  | .str _ => .error (.typeError "string indices must be integers")
  | .arr _ => .error (.typeError "list indices must be integers")
  | _ => .error (.typeError "object is not subscriptable")

/-! ### Question extractor (question_extractor.py)

The Bedrock client is modelled by oracles: the decoded body of the
extraction call (the texts of its content entries, or a raised exception
covering ClientError and any decode failure), and one such body per
generated answer.  The json.loads applied to the completion text is the
parse oracle. -/

/-- One extracted question as assembled by
extract_questions_only_with_bedrock: the question text plus the optional
context entry (present only when truthy with truthy strip). -/
structure CleanQuestion where
  question : String
  question_context : Option String
deriving DecidableEq

/-- The per-item loop of extract_questions_only_with_bedrock (lines
99-111).  The error case models an AttributeError from calling strip on a
non-string value, which the catch-all of the enclosing function turns
into an empty result. -/
def validQuestionItems : List PyJson → Except Unit (List CleanQuestion)
  | [] => .ok []
  | item :: rest =>
    match item with
    | .obj kvs =>
      match kvs.lookup "question" with
      | some (.str q) =>
        if (pyStrip q).length > 5 then
          let ctx : Except Unit (Option String) :=
            match kvs.lookup "question_context" with
            | some v =>
              if v.truthy then
                match v with
                | .str s => if pyStrip s ≠ "" then .ok (some s) else .ok none
                | _ => .error ()
              else .ok none
            | none => .ok none
          match ctx with
          | .error _ => .error ()
          | .ok c =>
            match validQuestionItems rest with
            | .error _ => .error ()
            | .ok vs => .ok ({ question := q, question_context := c } :: vs)
        else
          validQuestionItems rest
      | some _ => .error ()
      | none => validQuestionItems rest
    | _ => validQuestionItems rest

/-- The completion-parsing tail of extract_questions_only_with_bedrock
(lines 90-122): bracket search, slice, json.loads, item filtering.  Every
failure (no bracketed region, decode error, a non-array decode whose
iteration yields no dict or raises, a strip on a non-string) ends in an
empty list by the except clauses of the source. -/
def parse_bedrock_completion (jsonParse : String → Option PyJson) (completion : String) :
    List CleanQuestion :=
  let json_start := pyFind completion '['
  let json_end := pyRFind completion ']' + 1
  if 0 ≤ json_start ∧ json_start < json_end then
    match jsonParse (pySlice completion json_start.toNat json_end.toNat) with
    | none => []
    | some (.arr items) =>
      match validQuestionItems items with
      | .error _ => []
      | .ok vs => vs
    | some _ => []
  else []

/-- The environment of one run of the media + transcription + extraction
sub-operation: the outcomes of every external call it can make. -/
structure SubOpEnv where
  /-- video_processor.process_video outcome.  The function catches every
  exception and returns a status dictionary (video_processor.py lines
  183-265), so its interface is total: a status string and the
  audio_s3_uri entry when present. -/
  video_status : String
  video_audio_s3_uri : Option String
  /-- transcribe start_transcription_job: the job name, or a raise -/
  transcribe_start : Except PyExc String
  /-- get_transcription_job status of the i-th poll -/
  poll : Nat → Except PyExc String
  /-- the number of polls the max_wait_time budget admits; the source
  bounds the poll loop by wall-clock time (3600 s at 30 s per poll) -/
  poll_fuel : Nat
  /-- transcript download and parse (get_transcript_text): the full
  transcript text, or a raise -/
  fetch_transcript : Except PyExc String
  /-- decoded content texts of the extraction invoke_model call, or a
  raise covering ClientError and body decode failures -/
  bedrock_extract : Except PyExc (List String)
  /-- stdlib json.loads -/
  jsonParse : String → Option PyJson
  /-- decoded content texts of the invoke_model call generating the
  answer of question number i (1-based), or a raise -/
  bedrock_answer : Nat → Except PyExc (List String)

/-- question_extractor.extract_questions_only_with_bedrock (lines 22-129).
The client-availability guard is not modelled (the client is assumed
constructed).  A raised ClientError or any other exception of the invoke
or body decode is caught and becomes an empty list, as does an empty
content list. -/
def extract_questions_only_with_bedrock (env : SubOpEnv) : List CleanQuestion × List Eff :=
  match env.bedrock_extract with
  | .error _ => ([], [Eff.callBedrockExtract])
  | .ok [] => ([], [Eff.callBedrockExtract])
  | .ok (completion :: _) => (parse_bedrock_completion env.jsonParse completion, [Eff.callBedrockExtract])

/-- question_extractor.generate_professional_answer_with_bedrock (lines
131-205) for question number i: the stripped first content text, or an
empty string on empty content or any caught exception. -/
def generate_professional_answer (env : SubOpEnv) (i : Nat) : String × List Eff :=
  match env.bedrock_answer i with
  | .error _ => ("", [Eff.callBedrockAnswer i])
  | .ok [] => ("", [Eff.callBedrockAnswer i])
  | .ok (t :: _) => (pyStrip t, [Eff.callBedrockAnswer i])

/-- One complete question of the extract_questions result dictionary:
keys question, professional_answer, and optionally question_context. -/
structure CompleteQuestion where
  question : String
  professional_answer : String
  question_context : Option String
deriving DecidableEq

/-- The result dictionary of extract_questions, projected onto the
entries the workflow reads (interviewer_questions and status); the
total_questions and bookkeeping entries are not read downstream. -/
structure ExtractResult where
  interviewer_questions : List CompleteQuestion
  status : String
deriving DecidableEq

/-- The per-question answer loop of extract_questions (lines 249-293),
enumerating from 1.  A falsy answer keeps the question with the explicit
failure marker; the per-question except clause cannot fire because
generate_professional_answer catches everything. -/
def answers_loop (env : SubOpEnv) : Nat → List CleanQuestion → List CompleteQuestion × List Eff
  | _, [] => ([], [])
  | i, qd :: rest =>
    match generate_professional_answer env i with
    | (ans, t1) =>
      let item : CompleteQuestion :=
        if ans ≠ "" then
          { question := qd.question, professional_answer := ans, question_context := qd.question_context }
        else
          { question := qd.question, professional_answer := "Answer generation failed", question_context := qd.question_context }
      match answers_loop env (i + 1) rest with
      | (items, t2) => (item :: items, t1 ++ t2)

/-- question_extractor.extract_questions (lines 207-318).  The status
error branches of the source require an exception to escape the helper
calls; both helpers catch every exception internally, so the embedded
pipeline is total and the status is always success. -/
def extract_questions (env : SubOpEnv) : ExtractResult × List Eff :=
  match extract_questions_only_with_bedrock env with
  | (raw, t1) =>
    if raw = [] then ({ interviewer_questions := [], status := "success" }, t1)
    else
      match answers_loop env 1 raw with
      | (complete, t2) => ({ interviewer_questions := complete, status := "success" }, t1 ++ t2)

/-! ### Audio transcriber (audio_transcriber.py)

Modelled against the SubOpEnv oracle: job start, one status string per
poll, and the transcript download.  The transcription result dictionary
is projected onto the entries the workflow reads: status and
full_transcript. -/

/-- The projected result of transcribe_audio. -/
structure TranscriptionResult where
  status : String
  full_transcript : Option String
deriving DecidableEq

/-- audio_transcriber.wait_for_job_completion (lines 104-141).  The
wall-clock bound of the while loop is modelled by fuel, the number of
polls the max_wait_time budget admits; i is the poll index.  A COMPLETED
status returns, FAILED raises a bare Exception with the failure reason,
anything else sleeps and polls again, and an exhausted budget raises
TimeoutError.  A raise from the status check itself propagates. -/
def wait_for_job_completion (env : SubOpEnv) : Nat → Nat → Except PyExc Unit
  | 0, _ => .error (.timeoutError "Transcription job did not complete within the maximum wait time")
  | fuel + 1, i =>
    match env.poll i with
    | .error e => .error e
    | .ok s =>
      if s = "COMPLETED" then .ok ()
      else if s = "FAILED" then .error (.otherError "Transcription job failed")
      else wait_for_job_completion env fuel (i + 1)

/-- audio_transcriber.transcribe_audio with wait_for_completion (lines
233-283).  Every exception of the job start, the poll loop or the
transcript fetch is caught by the outer except clause, which returns a
status error dictionary.  The status failed branch of the source is
unreachable because wait_for_job_completion only returns on COMPLETED. -/
def transcribe_audio (env : SubOpEnv) : TranscriptionResult × List Eff :=
  match env.transcribe_start with
  | .error _ => ({ status := "error", full_transcript := none }, [Eff.callTranscribe])
  | .ok _ =>
    match wait_for_job_completion env env.poll_fuel 0 with
    | .error _ => ({ status := "error", full_transcript := none }, [Eff.callTranscribe])
    | .ok _ =>
      match env.fetch_transcript with
      | .error _ => ({ status := "error", full_transcript := none }, [Eff.callTranscribe])
      | .ok text => ({ status := "success", full_transcript := some text }, [Eff.callTranscribe])

/-! ### Question formatting and persistence
(interview_workflow._format_questions_for_database and
dynamodb_handler.save_questions_batch) -/

/-- One raw question handed to _format_questions_for_database.  The
extractor produces dictionaries; the string and other shapes cover the
duck-typed branches of the source.  Dictionary values are modelled as
strings, the only value shape the extractor emits. -/
inductive RawQuestion where
  | dict (kvs : List (String × String))
  | str (s : String)
  | other
deriving DecidableEq

/-- dict.get with a default. -/
def dictGet (kvs : List (String × String)) (k : String) (dflt : String) : String :=
  (kvs.lookup k).getD dflt

/-- One formatted question dictionary: keys question, answer, context,
always present (possibly empty). -/
structure FormattedQ where
  question : String
  answer : String
  context : String
deriving DecidableEq

/-- interview_workflow._format_questions_for_database (lines 239-269).
A dict item maps question, professional_answer (falling back to answer),
question_context (falling back to context); a string item becomes the
question with empty answer and context; any other shape leaves the
formatted dictionary empty.  The item is kept only when the stripped
question text is truthy. -/
def format_questions_for_database (raw : List RawQuestion) : List FormattedQ :=
  raw.filterMap fun q =>
    match q with
    | .dict kvs =>
      let fq : FormattedQ :=
        { question := dictGet kvs "question" ""
          answer := dictGet kvs "professional_answer" (dictGet kvs "answer" "")
          context := dictGet kvs "question_context" (dictGet kvs "context" "") }
      if pyStrip fq.question ≠ "" then some fq else none
    | .str s =>
      if pyStrip s ≠ "" then some { question := s, answer := "", context := "" } else none
    | .other => none

/-- The conversion of a complete question of the extractor into the
dictionary _format_questions_for_database receives. -/
def completeToRaw (cq : CompleteQuestion) : RawQuestion :=
  .dict ([("question", cq.question), ("professional_answer", cq.professional_answer)] ++
    (match cq.question_context with
     | some c => [("question_context", c)]
     | none => []))

/-- One DynamoDB put request built by save_questions_batch, projected
onto its data attributes.  The generated uuid id, the constant false
global flag and the two timestamps are not modelled; optional attributes
are present only when the corresponding entry is present and truthy
(dynamodb_handler.py lines 135-153). -/
structure QuestionPutItem where
  interview_id : String
  user_id : String
  question : String
  context : Option String
  answer : Option String
  question_context : Option String
deriving DecidableEq

/-- A truthy optional attribute of a question dictionary. -/
def optAttr (kvs : List (String × String)) (k : String) : Option String :=
  match kvs.lookup k with
  | some v => if v ≠ "" then some v else none
  | none => none

/-- The put-request construction loop of save_questions_batch (lines
125-159): items lacking the required question key are skipped with a log
line; present question values are written unconditionally. -/
def build_put_items (interview_id user_id : String) (questions : List (List (String × String))) :
    List QuestionPutItem :=
  questions.filterMap fun q =>
    match q.lookup "question" with
    | none => none
    | some qv =>
      some { interview_id := interview_id, user_id := user_id, question := qv,
             context := optAttr q "context", answer := optAttr q "answer",
             question_context := optAttr q "question_context" }

/-- Successive chunks of at most n elements. -/
def chunksOfGo (n : Nat) : Nat → List α → List (List α)
  | 0, l => if l.isEmpty then [] else [l]
  | fuel + 1, l =>
    if l.isEmpty then []
    else if n = 0 then [l]
    else l.take n :: chunksOfGo n fuel (l.drop n)

/-- Successive chunks of at most n elements, driven by a length fuel
(each step consumes n positive elements, so the fuel never runs out). -/
def chunksOf (n : Nat) (l : List α) : List (List α) :=
  chunksOfGo n l.length l

/-- The chunked batch_write_item loop of save_questions_batch (lines
161-184): one boto call per chunk of 25; unprocessed items within a
chunk are only logged; a raise from any call makes the whole function
return false. -/
def run_batches (batchWrite : Nat → Except PyExc Nat) :
    List (List QuestionPutItem) → Nat → Bool × List Eff
  | [], _ => (true, [])
  | c :: cs, i =>
    match batchWrite i with
    | .error _ => (false, [Eff.recBatchWrite c.length])
    | .ok _unprocessed =>
      match run_batches batchWrite cs (i + 1) with
      | (b, t) => (b, Eff.recBatchWrite c.length :: t)

/-- dynamodb_handler.save_questions_batch (lines 103-191), against a
batch-write oracle giving each chunked call an unprocessed count or a
raise.  An empty question list returns true before any boto call. -/
def save_questions_batch (batchWrite : Nat → Except PyExc Nat)
    (interview_id user_id : String) (questions : List (List (String × String))) :
    Bool × List Eff :=
  if questions.isEmpty then (true, [])
  else run_batches batchWrite (chunksOf 25 (build_put_items interview_id user_id questions)) 0

/-! ### The workflow (interview_workflow.py) -/

/-- The environment of one process_interview_message run: the outcomes of
every external call the run can make.  sub gives the sub-operation
environment of each retry attempt (only attempt 0 is ever consumed, see
the claim on the retry wrapper). -/
structure WorkflowEnv where
  /-- the configured S3 bucket name (config.S3_BUCKET) -/
  bucket : String
  /-- dynamodb get_item on the interviews table: the converted item when
  present, none when absent, or a raise -/
  get_item : Except PyExc (Option InterviewRecord)
  /-- dynamodb update_item setting the given state, or a raise -/
  update_item : String → Except PyExc Unit
  /-- sqs change_message_visibility, or a raise -/
  change_visibility : Except PyExc Unit
  /-- dynamodb batch_write_item on chunk i: unprocessed count, or a raise -/
  batch_write : Nat → Except PyExc Nat
  /-- the environment of retry attempt i of the sub-operation -/
  sub : Nat → SubOpEnv

/-- dynamodb_handler.get_interview_by_id (lines 25-59): a missing item is
none, and both except clauses re-raise. -/
def get_interview_by_id (env : WorkflowEnv) : Except PyExc (Option InterviewRecord) × List Eff :=
  (env.get_item, [Eff.recGet])

/-- dynamodb_handler.update_interview_state (lines 61-101): the boto
update_item call is issued, and every exception is caught and turned
into false; the function never raises. -/
def update_interview_state (env : WorkflowEnv) (state : String) : Bool × List Eff :=
  match env.update_item state with
  | .ok _ => (true, [Eff.recUpdate state])
  | .error _ => (false, [Eff.recUpdate state])

/-- sqs_handler.change_message_visibility (lines 118-149): the boto call
is issued, every exception is caught, and the result is a bool.  The
missing-ReceiptHandle guard is not modelled: received messages carry
their handle. -/
def change_message_visibility (env : WorkflowEnv) (seconds : Nat) : Bool × List Eff :=
  match env.change_visibility with
  | .ok _ => (true, [Eff.qVisibility seconds])
  | .error _ => (false, [Eff.qVisibility seconds])

/-- The body of interview_workflow._process_video_and_extract_questions
(lines 184-237): reference normalisation, media pipeline, transcription,
transcript check, extraction, formatting.  Every component catches its
own exceptions internally, and the enclosing try/except of the source
turns any escaping exception into None, so the body is total with
failure signalled by None. -/
def sub_op_inner (bucket : String) (env : SubOpEnv) (video_path : String) :
    Option (List FormattedQ) × List Eff :=
  let s3_uri := if pyStartsWith video_path "videos/" then "s3://" ++ bucket ++ "/" ++ video_path else video_path
  let tVid := [Eff.callVideo s3_uri]
  if env.video_status ≠ "success" then (none, tVid)
  else
    match env.video_audio_s3_uri with
    | none => (none, tVid) -- a missing audio_s3_uri key raises KeyError, caught into None
    | some _audio =>
      match transcribe_audio env with
      | (tr, tTr) =>
        if tr.status ≠ "success" then (none, tVid ++ tTr)
        else
          let full := tr.full_transcript.getD ""
          if full = "" then (none, tVid ++ tTr)
          else
            match extract_questions env with
            | (qr, tEx) =>
              if qr.status ≠ "success" then (none, tVid ++ tTr ++ tEx)
              else
                (some (format_questions_for_database (qr.interviewer_questions.map completeToRaw)),
                 tVid ++ tTr ++ tEx)

/-- interview_workflow._process_video_and_extract_questions as decorated:
retry_with_backoff(max_retries=2) with the default base delay 1.0 and
maximum delay 60.0 around the handle_errors-wrapped body.  handle_errors
only transforms raised exceptions and the body never raises, so the
decorated operation returns an ok value on every attempt. -/
def process_video_and_extract_questions (env : WorkflowEnv) (video_path : String) :
    Except PyExc (Option (List FormattedQ)) × Nat × List Eff :=
  retry_with_backoff
    (fun i =>
      match sub_op_inner env.bucket (env.sub i) video_path with
      | (q, t) => (Except.ok q, t))
    2 1 60

/-- Number of parameters of DynamoDBHandler.save_questions_batch
(dynamodb_handler.py line 103): self, interview_id, user_id, questions. -/
def save_questions_batch_param_count : Nat := 4

/-- Number of positional arguments of the call in
process_interview_message (interview_workflow.py lines 118-120): the
bound self plus interview_id, user_id, questions, interview_type,
programming_language. -/
def save_questions_batch_call_arg_count : Nat := 6

/-- The formatted-question dictionary handed to save_questions_batch by
the call of step 5. -/
def fqToDict (fq : FormattedQ) : List (String × String) :=
  [("question", fq.question), ("answer", fq.answer), ("context", fq.context)]

/-- Steps 5 and 6 of process_interview_message (lines 115-130).  Step 5
calls save_questions_batch with five positional arguments while the
method accepts three besides self, so the Python call raises TypeError
before the method body runs; the embedding keeps the intended
continuation under the (statically false) arity test so the dead success
path stays visible. -/
def save_and_complete (env : WorkflowEnv) (interview_id user_id : String)
    (questions : List FormattedQ) : Except PyExc Bool × List Eff :=
  if save_questions_batch_call_arg_count = save_questions_batch_param_count then
    -- dead branch: the intended steps 5 and 6
    match save_questions_batch env.batch_write interview_id user_id (questions.map fqToDict) with
    | (false, t4) =>
      (.error (.awsServiceError ("Failed to save questions to DynamoDB: " ++ interview_id)), t4)
    | (true, t4) =>
      match update_interview_state env "completed" with
      | (false, t5) =>
        (.error (.awsServiceError ("Failed to update interview state to completed: " ++ interview_id)), t4 ++ t5)
      | (true, t5) => (.ok true, t4 ++ t5)
  else
    (.error (.typeError "save_questions_batch() takes 4 positional arguments but 6 were given"), [])

/-- Step 4 of process_interview_message (lines 101-113) followed by the
remaining steps: extend the queue visibility when a message is present,
run the retried sub-operation, treat a None result as
VideoProcessingError, and hand the questions to step 5. -/
def after_processing_update (env : WorkflowEnv) (interview_id user_id video_path : String)
    (hasMsg : Bool) : Except PyExc Bool × List Eff :=
  let t2 := if hasMsg then (change_message_visibility env 1800).2 else []
  match process_video_and_extract_questions env video_path with
  | (.error e, _, t3) => (.error e, t2 ++ t3)
  | (.ok none, _, t3) =>
    (.error (.videoProcessingError ("Failed to process video and extract questions: " ++ video_path)), t2 ++ t3)
  | (.ok (some questions), _, t3) =>
    match save_and_complete env interview_id user_id questions with
    | (r, t45) => (r, t2 ++ t3 ++ t45)

/-- Steps 2b and 3 of process_interview_message (lines 84-99) followed by
the remaining steps: record validation, the processing-state update
(whose false result aborts the run with AWSServiceError), and the rest
of the pipeline. -/
def after_load (env : WorkflowEnv) (interview_id : String) (hasMsg : Bool)
    (itv : InterviewRecord) : Except PyExc Bool × List Eff :=
  match validate_interview_data itv with
  | .error e => (.error e, [])
  | .ok _ =>
    match update_interview_state env "processing" with
    | (false, t1) =>
      (.error (.awsServiceError ("Failed to update interview state to processing: " ++ interview_id)), t1)
    | (true, t1) =>
      match after_processing_update env interview_id (itv.user_id.getD "") (itv.video_path.getD "") hasMsg with
      | (r, trest) => (r, t1 ++ trest)

/-- The try block of interview_workflow.process_interview_message (lines
69-138): UUID validation, record load (a missing record raising
ValidationError), then the staged remainder.  The stages concatenate
their traces in source order. -/
def process_interview_body (env : WorkflowEnv) (interview_id : String) (hasMsg : Bool) :
    Except PyExc Bool × List Eff :=
  match validate_uuid interview_id "Interview ID" with
  | .error e => (.error e, [])
  | .ok _ =>
    match env.get_item with
    | .error e => (.error e, [Eff.recGet])
    | .ok none => (.error (.validationError ("Interview not found in DynamoDB: " ++ interview_id)), [Eff.recGet])
    | .ok (some itv) =>
      match after_load env interview_id hasMsg itv with
      | (r, t) => (r, Eff.recGet :: t)

/-- interview_workflow.process_interview_message (lines 54-170).  The two
except clauses (the custom InterviewProcessingError family, and the
catch-all for unexpected exceptions) both log metrics, attempt a
best-effort failed-state update inside their own try/except, and return
false.  update_interview_state is total, so the inner try/except never
fires; the handle_errors decorator on the method only transforms raised
exceptions and is transparent here. -/
def process_interview_message (env : WorkflowEnv) (interview_id : String) (hasMsg : Bool) :
    Except PyExc Bool × List Eff :=
  match process_interview_body env interview_id hasMsg with
  | (.ok b, t) => (.ok b, t)
  | (.error _, t) =>
    match update_interview_state env "failed" with
    | (_, tf) => (.ok false, t ++ tf)

/-! ### Queue run loop (sqs_handler.py) -/

/-- sqs_handler.parse_message_body (lines 58-85) against a json.loads
oracle: a decode failure, a failed interview_id membership test, or a
TypeError from testing membership on a non-container all return none
(the except clauses catch them); otherwise the decoded payload is
returned as-is, whatever its shape. -/
def parse_message_body (jsonParse : String → Option PyJson) (body : String) : Option PyJson :=
  match jsonParse body with
  | none => none
  | some parsed =>
    match parsed.hasMember "interview_id" with
    | .error _ => none
    | .ok false => none
    | .ok true => some parsed

/-- The per-message body of sqs_handler.run_message_processor (lines
170-198) for one received message, against the callback outcome cb.  An
escaping exception (only possible from subscripting a non-dict payload
at line 179, which sits outside the try around the callback) is the
error case; the enclosing while-level except catches it one level up. -/
def process_message_in_loop (jsonParse : String → Option PyJson) (cb : Except PyExc Bool)
    (body : String) : Except PyExc (List Eff) :=
  match parse_message_body jsonParse body with
  | none => .ok [Eff.qDelete]
  | some parsed =>
    match parsed.subscript "interview_id" with
    | .error e => .error e
    | .ok _interviewId =>
      let tv := [Eff.qVisibility 600]
      match cb with
      | .ok true => .ok (tv ++ [Eff.cbCall, Eff.qDelete])
      | .ok false => .ok (tv ++ [Eff.cbCall])
      | .error _ => .ok (tv ++ [Eff.cbCall])

/-- One iteration of the while loop of run_message_processor around one
received message: the while-level except Exception clause (lines
203-206) catches anything escaping the message handling, sleeps five
seconds and keeps polling, so the iteration always yields a trace and
the loop continues (only KeyboardInterrupt, outside the Exception
hierarchy and the model, breaks it). -/
def loop_iteration (jsonParse : String → Option PyJson) (cb : Except PyExc Bool)
    (body : String) : List Eff :=
  match process_message_in_loop jsonParse cb body with
  | .ok t => t
  | .error _ => [Eff.loopSleep]

/-! ### Trace observers and auxiliary predicates -/

deriving instance DecidableEq for Except

/-- The sequence of interview-state values written to the record store in
a trace. -/
def stateUpdates (t : List Eff) : List String :=
  t.filterMap fun e =>
    match e with
    | .recUpdate s => some s
    | _ => none

/-- The last interview-state value written in a trace: the state the
interview record ends in when every update call succeeds. -/
def finalStateUpdate (t : List Eff) : Option String :=
  (stateUpdates t).getLast?

/-- An error the retry loop backs off on rather than failing fast. -/
def retryableErr (e : PyExc) : Prop :=
  ¬(e.isBoto = true ∧ e.botoCode ∈ nonRetryableCodes)

/-- The queue-message shape the specification calls parseable: the body
decodes to an object containing the interview_id key (spec sections 4.4
and 6); every other shape is unparseable in the sense of the spec. -/
def specParsesToObjWithKey (jsonParse : String → Option PyJson) (body : String) : Prop :=
  ∃ kvs, jsonParse body = some (.obj kvs) ∧ kvs.any (fun p => p.1 = "interview_id") = true

/-! ### Concrete environments used by counterexamples and witnesses -/

/-- A sub-operation environment in which every external call fails; the
placeholder for runs that never reach the sub-operation. -/
def nullSubEnv : SubOpEnv where
  video_status := "error"
  video_audio_s3_uri := none
  transcribe_start := .error (.otherError "unused")
  poll := fun _ => .ok "QUEUED"
  poll_fuel := 0
  fetch_transcript := .error (.otherError "unused")
  bedrock_extract := .error (.otherError "unused")
  jsonParse := fun _ => none
  bedrock_answer := fun _ => .error (.otherError "unused")

/-- A workflow environment with an empty record store and succeeding
update calls. -/
def plainEnv : WorkflowEnv where
  bucket := "test-bucket"
  get_item := .ok none
  update_item := fun _ => .ok ()
  change_visibility := .ok ()
  batch_write := fun _ => .ok 0
  sub := fun _ => nullSubEnv

/-- A workflow environment in which every record-store update call
raises, including the best-effort failed update. -/
def raisingUpdateEnv : WorkflowEnv :=
  { plainEnv with update_item := fun _ => .error (.clientError "InternalServerError" "boom") }

/-- The Bedrock completion of the section 8 scenario: a JSON array with
one extracted question. -/
def completion1 : String := "[\x7b\"question\": \"Tell me about yourself?\"\x7d]"

/-- The sub-operation environment of the section 8 success scenario:
media succeeds with an audio URI, the transcription job completes on the
first poll with the scenario transcript, the extraction call returns one
question and the answer call returns a non-empty answer. -/
def scenarioSubEnv : SubOpEnv where
  video_status := "success"
  video_audio_s3_uri := some "s3://test-bucket/audio/sample_audio.wav"
  transcribe_start := .ok "video-transcription-job1"
  poll := fun _ => .ok "COMPLETED"
  poll_fuel := 120
  fetch_transcript := .ok "Tell me about yourself? I work in backend."
  bedrock_extract := .ok [completion1]
  jsonParse := fun s =>
    if s = completion1 then some (.arr [.obj [("question", .str "Tell me about yourself?")]]) else none
  bedrock_answer := fun _ => .ok ["A professional answer."]

/-- The interview record of the section 8 scenario. -/
def scenarioInterview : InterviewRecord where
  id := some "11111111-1111-1111-1111-111111111111"
  video_path := some "videos/x/y/sample.mp4"
  user_id := some "22222222-2222-2222-2222-222222222222"
  interview_type := some "backend"
  programming_language := some "python"

/-- The workflow environment of the section 8 scenario: the record store
holds the scenario interview, every update and batch call succeeds, and
every retry attempt of the sub-operation sees the success environment. -/
def scenarioEnv : WorkflowEnv where
  bucket := "test-bucket"
  get_item := .ok (some scenarioInterview)
  update_item := fun _ => .ok ()
  change_visibility := .ok ()
  batch_write := fun _ => .ok 0
  sub := fun _ => scenarioSubEnv

/-- The scenario environment with a record store whose processing-state
update raises while everything else succeeds. -/
def processingFailsEnv : WorkflowEnv :=
  { scenarioEnv with
    update_item := fun s =>
      if s = "processing" then .error (.clientError "InternalServerError" "boom") else .ok () }

/-- The scenario sub-operation environment with the transcription job
start failing with a retryable throttling ClientError. -/
def throttledSubEnv : SubOpEnv :=
  { scenarioSubEnv with transcribe_start := .error (.clientError "ThrottlingException" "Rate exceeded") }

/-- A workflow environment whose sub-operation fails with a retryable
error on attempts 0 and 1 and would succeed on attempt 2: the input of
the retry-scenario of section 8. -/
def retryScenarioEnv : WorkflowEnv :=
  { scenarioEnv with sub := fun i => if i < 2 then throttledSubEnv else scenarioSubEnv }

/-- A message body whose JSON decode is a one-element array containing
the string interview_id. -/
def arrayBody : String := "[\"interview_id\"]"

/-- A json.loads oracle decoding arrayBody to that array. -/
def arrayBodyParse : String → Option PyJson :=
  fun s => if s = arrayBody then some (.arr [.str "interview_id"]) else none

/-- A message body carrying the documented object payload. -/
def objBody : String := "\x7b\"interview_id\": \"11111111-1111-1111-1111-111111111111\"\x7d"

/-- A json.loads oracle decoding objBody to that object. -/
def objBodyParse : String → Option PyJson :=
  fun s =>
    if s = objBody then
      some (.obj [("interview_id", .str "11111111-1111-1111-1111-111111111111")])
    else none

/-- The scenario environment with a transcription job that reports FAILED
on the first poll. -/
def failedPollEnv : WorkflowEnv :=
  { scenarioEnv with sub := fun _ => { scenarioSubEnv with poll := fun _ => .ok "FAILED" } }

/-- A sub-operation environment whose extraction call raises a throttling
ClientError; everything else succeeds as in the scenario. -/
def extractErrSubEnv : SubOpEnv :=
  { scenarioSubEnv with bedrock_extract := .error (.clientError "ThrottlingException" "Rate exceeded") }

/-- A sub-operation environment whose extraction call genuinely finds no
questions: the completion is an empty JSON array. -/
def extractEmptySubEnv : SubOpEnv :=
  { scenarioSubEnv with
    bedrock_extract := .ok ["[]"]
    jsonParse := fun s => if s = "[]" then some (.arr []) else none }

/-! ### Helper lemmas -/

lemma update_state_trace (env : WorkflowEnv) (s : String) :
    (update_interview_state env s).2 = [Eff.recUpdate s] := by
  unfold update_interview_state
  cases env.update_item s <;> rfl

lemma save_and_complete_ok_true (env : WorkflowEnv) (iid uid : String) (qs : List FormattedQ)
    (b : Bool) (t : List Eff) (h : save_and_complete env iid uid qs = (.ok b, t)) : b = true := by
  unfold save_and_complete at h
  repeat' split at h
  all_goals simp_all

lemma after_processing_ok_true (env : WorkflowEnv) (iid uid vp : String) (hm : Bool)
    (b : Bool) (t : List Eff) (h : after_processing_update env iid uid vp hm = (.ok b, t)) :
    b = true := by
  unfold after_processing_update at h
  rcases hq : process_video_and_extract_questions env vp with ⟨r3, n3, t3⟩
  rw [hq] at h
  dsimp only at h
  rcases r3 with e | q
  · simp at h
  · rcases q with - | qs
    · simp at h
    · dsimp only at h
      rcases hs : save_and_complete env iid uid qs with ⟨r45, t45⟩
      rw [hs] at h
      simp only [Prod.mk.injEq] at h
      exact save_and_complete_ok_true env iid uid qs b t45 (by rw [hs, h.1])

lemma after_load_ok_true (env : WorkflowEnv) (iid : String) (hm : Bool) (itv : InterviewRecord)
    (b : Bool) (t : List Eff) (h : after_load env iid hm itv = (.ok b, t)) : b = true := by
  unfold after_load at h
  rcases hv : validate_interview_data itv with e | itv2
  · rw [hv] at h; simp at h
  · rw [hv] at h
    rcases hu : update_interview_state env "processing" with ⟨bu, t1⟩
    rw [hu] at h
    rcases bu
    · simp at h
    · rcases hp : after_processing_update env iid (itv.user_id.getD "") (itv.video_path.getD "") hm with ⟨r, trest⟩
      rw [hp] at h
      simp only [Prod.mk.injEq] at h
      exact after_processing_ok_true env iid _ _ hm b trest (by rw [hp, h.1])

lemma body_ok_true (env : WorkflowEnv) (id : String) (hm : Bool) (b : Bool) (t : List Eff)
    (h : process_interview_body env id hm = (.ok b, t)) : b = true := by
  unfold process_interview_body at h
  rcases hv : validate_uuid id "Interview ID" with e | s
  · rw [hv] at h; simp at h
  · rw [hv] at h
    rcases hg : env.get_item with e | oitv
    · rw [hg] at h; simp at h
    · rw [hg] at h
      rcases oitv with - | itv
      · simp at h
      · dsimp only at h
        rcases hl : after_load env id hm itv with ⟨r, t1⟩
        rw [hl] at h
        simp only [Prod.mk.injEq] at h
        exact after_load_ok_true env id hm itv b t1 (by rw [hl, h.1])

lemma retry_go_first_ok (op : Nat → Except PyExc α × List Eff) (b m : ℚ) (maxR r a : Nat)
    (v : α) (t : List Eff) (h : op a = (.ok v, t)) :
    retry_go op b m maxR r a = (.ok v, a + 1, t) := by
  cases r <;> simp [retry_go, h]

lemma retry_nonretryable_first (f : Nat → Except PyExc α) (b m : ℚ) (maxR : Nat) (e : PyExc)
    (h : f 0 = .error e) (hb : e.isBoto = true) (hc : e.botoCode ∈ nonRetryableCodes) :
    retry_with_backoff (pureOp f) maxR b m = (.error (nonRetryableRaise e), 1, []) := by
  unfold retry_with_backoff
  cases maxR <;> simp [retry_go, pureOp, h, hb, hc]

lemma retry_go_ok_after (f : Nat → Except PyExc α) (b m : ℚ) (maxR : Nat) (v : α) :
    ∀ (k r a : Nat), k ≤ r →
      (∀ j, j < k → ∃ e, f (a + j) = .error e ∧ retryableErr e) →
      f (a + k) = .ok v →
      retry_go (pureOp f) b m maxR r a =
        (.ok v, a + k + 1, (List.range k).map fun j => Eff.sleep (backoffDelay b m (a + j))) := by
  intro k
  induction k with
  | zero =>
    intro r a _ _ hok
    simp only [Nat.add_zero] at hok
    simp [retry_go_first_ok (pureOp f) b m maxR r a v [] (by simp [pureOp, hok])]
  | succ k ih =>
    intro r a hkr hfail hok
    obtain ⟨r', rfl⟩ : ∃ r', r = r' + 1 := ⟨r - 1, by omega⟩
    obtain ⟨e, he, hre⟩ := hfail 0 (by omega)
    simp only [Nat.add_zero] at he
    have hrec : retry_go (pureOp f) b m maxR r' (a + 1) =
        (.ok v, (a + 1) + k + 1, (List.range k).map fun j => Eff.sleep (backoffDelay b m ((a + 1) + j))) := by
      apply ih r' (a + 1) (by omega)
      · intro j hj
        obtain ⟨e', he', hre'⟩ := hfail (j + 1) (by omega)
        exact ⟨e', by rw [show a + 1 + j = a + (j + 1) by omega]; exact he', hre'⟩
      · rw [show a + 1 + k = a + (k + 1) by omega]; exact hok
    have hstep : retry_go (pureOp f) b m maxR (r' + 1) a =
        (Except.ok v, a + 1 + k + 1,
          Eff.sleep (backoffDelay b m a) :: List.map (fun j => Eff.sleep (backoffDelay b m (a + 1 + j))) (List.range k)) := by
      unfold retry_go
      rw [show pureOp f a = (f a, []) from rfl, he]
      cases hbo : e.isBoto
      · simp [hbo, hrec]
      · have hcode : ¬ (e.botoCode ∈ nonRetryableCodes) := fun hmem => hre ⟨hbo, hmem⟩
        simp [hbo, hcode, hrec]
    rw [hstep]
    simp only [Prod.mk.injEq]
    refine ⟨trivial, by omega, ?_⟩
    rw [List.range_succ_eq_map, List.map_cons, List.map_map]
    have harg : ((fun j => Eff.sleep (backoffDelay b m (a + j))) ∘ Nat.succ) =
        (fun j => Eff.sleep (backoffDelay b m (a + 1 + j))) := by
      funext j
      have hjj : a + Nat.succ j = a + 1 + j := by omega
      simp [Function.comp_apply, hjj]
    rw [harg]
    norm_num

lemma retry_go_exhaust (f : Nat → Except PyExc α) (b m : ℚ) (maxR : Nat) :
    ∀ (r a : Nat) (e : PyExc),
      (∀ j, j < r → ∃ e', f (a + j) = .error e' ∧ retryableErr e') →
      f (a + r) = .error e → retryableErr e →
      retry_go (pureOp f) b m maxR r a =
        ((if e.isBoto then Except.error (exhaustedRaise maxR e) else Except.error e), a + r + 1,
          (List.range r).map fun j => Eff.sleep (backoffDelay b m (a + j))) := by
  intro r
  induction r with
  | zero =>
    intro a e _ hlast hre
    simp only [Nat.add_zero] at hlast
    unfold retry_go
    rw [show pureOp f a = (f a, []) from rfl, hlast]
    cases hbo : e.isBoto
    · simp [hbo]
    · have hcode : ¬ (e.botoCode ∈ nonRetryableCodes) := fun hmem => hre ⟨hbo, hmem⟩
      simp [hbo, hcode]
  | succ r ih =>
    intro a e hfail hlast hre
    obtain ⟨e0, he0, hre0⟩ := hfail 0 (by omega)
    simp only [Nat.add_zero] at he0
    have hrec : retry_go (pureOp f) b m maxR r (a + 1) =
        ((if e.isBoto then Except.error (exhaustedRaise maxR e) else Except.error e), (a + 1) + r + 1,
          (List.range r).map fun j => Eff.sleep (backoffDelay b m ((a + 1) + j))) := by
      apply ih (a + 1) e
      · intro j hj
        obtain ⟨e', he', hre'⟩ := hfail (j + 1) (by omega)
        exact ⟨e', by rw [show a + 1 + j = a + (j + 1) by omega]; exact he', hre'⟩
      · rw [show a + 1 + r = a + (r + 1) by omega]; exact hlast
      · exact hre
    have hstep : retry_go (pureOp f) b m maxR (r + 1) a =
        ((if e.isBoto then Except.error (exhaustedRaise maxR e) else Except.error e), a + 1 + r + 1,
          Eff.sleep (backoffDelay b m a) :: List.map (fun j => Eff.sleep (backoffDelay b m (a + 1 + j))) (List.range r)) := by
      unfold retry_go
      rw [show pureOp f a = (f a, []) from rfl, he0]
      cases hbo : e0.isBoto
      · simp [hbo, hrec]
      · have hcode : ¬ (e0.botoCode ∈ nonRetryableCodes) := fun hmem => hre0 ⟨hbo, hmem⟩
        simp [hbo, hcode, hrec]
    rw [hstep]
    simp only [Prod.mk.injEq]
    refine ⟨trivial, by omega, ?_⟩
    rw [List.range_succ_eq_map, List.map_cons, List.map_map]
    have harg : ((fun j => Eff.sleep (backoffDelay b m (a + j))) ∘ Nat.succ) =
        (fun j => Eff.sleep (backoffDelay b m (a + 1 + j))) := by
      funext j
      have hjj : a + Nat.succ j = a + 1 + j := by omega
      simp [Function.comp_apply, hjj]
    rw [harg]
    norm_num

lemma transcribe_trace (env : SubOpEnv) : (transcribe_audio env).2 = [Eff.callTranscribe] := by
  unfold transcribe_audio
  rcases env.transcribe_start with e | j
  · rfl
  · rcases wait_for_job_completion env env.poll_fuel 0 with e | u
    · rfl
    · rcases env.fetch_transcript with e | s <;> rfl

lemma answer_trace (env : SubOpEnv) (i : Nat) :
    (generate_professional_answer env i).2 = [Eff.callBedrockAnswer i] := by
  unfold generate_professional_answer
  rcases env.bedrock_answer i with e | ts
  · rfl
  · rcases ts with - | ⟨t, ts⟩ <;> rfl

lemma answers_loop_no_sleep (env : SubOpEnv) :
    ∀ (qs : List CleanQuestion) (i : Nat) (d : ℚ), Eff.sleep d ∉ (answers_loop env i qs).2 := by
  intro qs
  induction qs with
  | nil => intro i d h; simp [answers_loop] at h
  | cons q rest ih =>
    intro i d h
    unfold answers_loop at h
    rcases ha : generate_professional_answer env i with ⟨ans, t1⟩
    rw [ha] at h
    rcases hr : answers_loop env (i + 1) rest with ⟨items, t2⟩
    rw [hr] at h
    simp only [List.mem_append] at h
    rcases h with h | h
    · have : t1 = [Eff.callBedrockAnswer i] := by
        have := answer_trace env i; rw [ha] at this; exact this
      rw [this] at h
      simp at h
    · exact ih (i + 1) d (by rw [hr]; exact h)

lemma extract_only_trace (env : SubOpEnv) :
    (extract_questions_only_with_bedrock env).2 = [Eff.callBedrockExtract] := by
  unfold extract_questions_only_with_bedrock
  rcases env.bedrock_extract with e | ts
  · rfl
  · rcases ts with - | ⟨c, cs⟩ <;> rfl

lemma extract_questions_no_sleep (env : SubOpEnv) (d : ℚ) :
    Eff.sleep d ∉ (extract_questions env).2 := by
  rcases hx : extract_questions_only_with_bedrock env with ⟨raw, t1⟩
  have ht1 : t1 = [Eff.callBedrockExtract] := by
    have := extract_only_trace env; rw [hx] at this; exact this
  subst ht1
  unfold extract_questions
  rw [hx]
  dsimp only
  split
  · simp
  · rcases hl : answers_loop env 1 raw with ⟨items, t2⟩
    dsimp only
    intro h
    simp only [List.mem_append] at h
    rcases h with h | h
    · simp at h
    · exact answers_loop_no_sleep env raw 1 d (by rw [hl]; exact h)

lemma sub_op_inner_no_sleep (bucket : String) (env : SubOpEnv) (vp : String) (d : ℚ) :
    Eff.sleep d ∉ (sub_op_inner bucket env vp).2 := by
  unfold sub_op_inner
  dsimp only
  split
  · simp
  · rcases ha : env.video_audio_s3_uri with - | a
    · simp
    · dsimp only
      rcases ht : transcribe_audio env with ⟨tr, tTr⟩
      have htTr : tTr = [Eff.callTranscribe] := by
        have := transcribe_trace env; rw [ht] at this; exact this
      subst htTr
      dsimp only
      split
      · simp
      · split
        · simp
        · rcases he : extract_questions env with ⟨qr, tEx⟩
          dsimp only
          split
          · intro h
            simp only [List.mem_append, List.mem_cons, List.mem_singleton] at h
            rcases h with (h | h) | h
            · simp at h
            · simp at h
            · exact extract_questions_no_sleep env d (by rw [he]; exact h)
          · intro h
            simp only [List.mem_append, List.mem_cons, List.mem_singleton] at h
            rcases h with (h | h) | h
            · simp at h
            · simp at h
            · exact extract_questions_no_sleep env d (by rw [he]; exact h)

lemma pv_one_attempt (env : WorkflowEnv) (vp : String) :
    process_video_and_extract_questions env vp =
      (.ok (sub_op_inner env.bucket (env.sub 0) vp).1, 1, (sub_op_inner env.bucket (env.sub 0) vp).2) := by
  unfold process_video_and_extract_questions retry_with_backoff
  apply retry_go_first_ok
  rcases h : sub_op_inner env.bucket (env.sub 0) vp with ⟨q, t⟩
  simp [h]

lemma wait_fails_on_failed (env : SubOpEnv) :
    ∀ (k i fuel : Nat), k < fuel →
      (∀ j, j < k → ∃ s, env.poll (i + j) = .ok s ∧ s ≠ "COMPLETED" ∧ s ≠ "FAILED") →
      env.poll (i + k) = .ok "FAILED" →
      wait_for_job_completion env fuel i = .error (.otherError "Transcription job failed") := by
  intro k
  induction k with
  | zero =>
    intro i fuel hf _ hlast
    obtain ⟨fuel', rfl⟩ : ∃ f', fuel = f' + 1 := ⟨fuel - 1, by omega⟩
    simp only [Nat.add_zero] at hlast
    unfold wait_for_job_completion
    rw [hlast]
    simp
  | succ k ih =>
    intro i fuel hf hprev hlast
    obtain ⟨fuel', rfl⟩ : ∃ f', fuel = f' + 1 := ⟨fuel - 1, by omega⟩
    obtain ⟨s0, hs0, hc0, hf0⟩ := hprev 0 (by omega)
    simp only [Nat.add_zero] at hs0
    unfold wait_for_job_completion
    rw [hs0]
    simp only [hc0, hf0, if_false]
    apply ih (i + 1) fuel' (by omega)
    · intro j hj
      obtain ⟨s, hs, hc, hfd⟩ := hprev (j + 1) (by omega)
      exact ⟨s, by rw [show i + 1 + j = i + (j + 1) by omega]; exact hs, hc, hfd⟩
    · rw [show i + 1 + k = i + (k + 1) by omega]; exact hlast

lemma lookup_of_any_key (k : String) :
    ∀ (kvs : List (String × PyJson)), kvs.any (fun p => p.1 = k) = true →
      ∃ v, kvs.lookup k = some v := by
  intro kvs
  induction kvs with
  | nil => intro h; simp at h
  | cons p rest ih =>
    intro h
    by_cases hk : p.1 = k
    · exact ⟨p.2, by simp [List.lookup, show (k == p.1) = true by simp [hk.symm]]⟩
    · have : rest.any (fun p => p.1 = k) = true := by
        simp only [List.any_cons, Bool.or_eq_true, decide_eq_true_eq] at h
        rcases h with h | h
        · exact absurd h hk
        · simpa using h
      obtain ⟨v, hv⟩ := ih this
      have hne : (k == p.1) = false := by
        simp only [beq_eq_false_iff_ne, ne_eq]
        exact fun hh => hk hh.symm
      exact ⟨v, by simp [List.lookup, hne, hv]⟩

lemma change_visibility_trace (env : WorkflowEnv) (n : Nat) :
    (change_message_visibility env n).2 = [Eff.qVisibility n] := by
  unfold change_message_visibility
  cases env.change_visibility <;> rfl

lemma parse_some_member (jp : String → Option PyJson) (body : String) (v : PyJson)
    (h : parse_message_body jp body = some v) : v.hasMember "interview_id" = .ok true := by
  unfold parse_message_body at h
  rcases hj : jp body with - | p
  · rw [hj] at h
    cases h
  · rw [hj] at h
    dsimp only at h
    rcases hm : p.hasMember "interview_id" with e | bb
    · rw [hm] at h
      cases h
    · rw [hm] at h
      rcases bb
      · simp at h
      · simp only [Option.some.injEq] at h
        subst h
        exact hm

lemma format_questions_nonempty (raw : List RawQuestion) (fq : FormattedQ)
    (h : fq ∈ format_questions_for_database raw) : pyStrip fq.question ≠ "" := by
  unfold format_questions_for_database at h
  rw [List.mem_filterMap] at h
  obtain ⟨a, -, hfa⟩ := h
  rcases a with kvs | s | -
  · dsimp only at hfa
    split at hfa
    · rename_i hcond
      simp only [Option.some.injEq] at hfa
      subst hfa
      simpa using hcond
    · cases hfa
  · dsimp only at hfa
    split at hfa
    · rename_i hcond
      simp only [Option.some.injEq] at hfa
      subst hfa
      simpa using hcond
    · cases hfa
  · cases hfa

lemma build_put_items_from_key (iid uid : String) (qs : List (List (String × String)))
    (item : QuestionPutItem) (h : item ∈ build_put_items iid uid qs) :
    ∃ q, q ∈ qs ∧ q.lookup "question" = some item.question := by
  unfold build_put_items at h
  rw [List.mem_filterMap] at h
  obtain ⟨q, hq, hfq⟩ := h
  refine ⟨q, hq, ?_⟩
  rcases hlk : q.lookup "question" with - | qv
  · rw [hlk] at hfq
    cases hfq
  · rw [hlk] at hfq
    simp only [Option.some.injEq] at hfq
    subst hfq
    simp [hlk]

/-! ### Claim theorems -/

/-- C1: the claim states that on the success path the workflow batch-writes
the extracted questions and completes.  The code cannot: the step 5 call
passes five positional arguments to save_questions_batch, which accepts
three besides self, so Python raises TypeError at the call site.  On the
section 8 scenario input, with media, transcription and extraction all
succeeding and one question extracted, the workflow returns false, writes
no question batch, and ends the interview in the failed state. -/
theorem c1_success_path_raises_type_error :
    save_questions_batch_call_arg_count ≠ save_questions_batch_param_count ∧
    process_interview_message scenarioEnv "11111111-1111-1111-1111-111111111111" true =
      (.ok false,
       [Eff.recGet, Eff.recUpdate "processing", Eff.qVisibility 1800,
        Eff.callVideo "s3://test-bucket/videos/x/y/sample.mp4", Eff.callTranscribe,
        Eff.callBedrockExtract, Eff.callBedrockAnswer 1, Eff.recUpdate "failed"]) ∧
    (∀ n, Eff.recBatchWrite n ∉
      (process_interview_message scenarioEnv "11111111-1111-1111-1111-111111111111" true).2) ∧
    finalStateUpdate
      (process_interview_message scenarioEnv "11111111-1111-1111-1111-111111111111" true).2 =
      some "failed" := by
  have he : process_interview_message scenarioEnv "11111111-1111-1111-1111-111111111111" true =
      (.ok false,
       [Eff.recGet, Eff.recUpdate "processing", Eff.qVisibility 1800,
        Eff.callVideo "s3://test-bucket/videos/x/y/sample.mp4", Eff.callTranscribe,
        Eff.callBedrockExtract, Eff.callBedrockAnswer 1, Eff.recUpdate "failed"]) := by decide
  refine ⟨by decide, he, ?_, ?_⟩
  · intro n
    rw [he]
    simp
  · rw [he]
    decide

/-- C2 counterexample: for the malformed interview ID not-a-uuid the
workflow does return false, but the record store is contacted: the
failure handler issues an update_item call setting the state to failed
for the malformed ID, so the trace is not free of record-store
interaction as the claim demands. -/
theorem c2_counterexample :
    validate_uuid "not-a-uuid" "Interview ID" =
      .error (.validationError "Interview ID must be a valid UUID: not-a-uuid") ∧
    process_interview_message plainEnv "not-a-uuid" true = (.ok false, [Eff.recUpdate "failed"]) ∧
    Eff.recUpdate "failed" ∈ (process_interview_message plainEnv "not-a-uuid" true).2 := by
  refine ⟨by decide, by decide, by decide⟩

/-- C2 amended: for every interview ID rejected by UUID validation the
workflow returns false without reading the interview record and without
any queue interaction, but the failure handler still performs exactly one
record-store write attempt, setting the state of the malformed ID to
failed. -/
theorem c2_amended_malformed_id (env : WorkflowEnv) (id : String) (hm : Bool) (e : PyExc)
    (h : validate_uuid id "Interview ID" = .error e) :
    process_interview_message env id hm = (.ok false, [Eff.recUpdate "failed"]) := by
  unfold process_interview_message process_interview_body
  rw [h]
  dsimp only
  rcases hu : update_interview_state env "failed" with ⟨bu, tu⟩
  have htu : tu = [Eff.recUpdate "failed"] := by
    have := update_state_trace env "failed"
    rw [hu] at this
    exact this
  subst htu
  rfl

/-- Witness for the amended C2 at the concrete malformed ID. -/
theorem c2_amended_malformed_id_witness :
    process_interview_message plainEnv "not-a-uuid" false = (.ok false, [Eff.recUpdate "failed"]) :=
  c2_amended_malformed_id plainEnv "not-a-uuid" false
    (.validationError "Interview ID must be a valid UUID: not-a-uuid") (by decide)

/-- C9 counterexample: an extraction whose Bedrock call raises a
ClientError produces exactly the same result dictionary as a genuinely
empty extraction: zero questions with status success.  The service-level
failure is not signalled. -/
theorem c9_counterexample :
    extract_questions extractErrSubEnv =
      ({ interviewer_questions := [], status := "success" }, [Eff.callBedrockExtract]) ∧
    extract_questions extractEmptySubEnv =
      ({ interviewer_questions := [], status := "success" }, [Eff.callBedrockExtract]) ∧
    extract_questions extractErrSubEnv = extract_questions extractEmptySubEnv := by
  refine ⟨by decide, by decide, by decide⟩

/-- C9 amended: a failure of the extraction call itself (a raised client
error or decode failure, or a response with no content) is swallowed into
an empty question list, and extract_questions reports it as status
success with zero questions, indistinguishable from a genuinely empty
extraction; no service-level failure is signalled. -/
theorem c9_amended_extraction_failure_is_success (env : SubOpEnv) (e : PyExc) :
    (env.bedrock_extract = .error e →
      extract_questions env =
        ({ interviewer_questions := [], status := "success" }, [Eff.callBedrockExtract])) ∧
    (env.bedrock_extract = .ok [] →
      extract_questions env =
        ({ interviewer_questions := [], status := "success" }, [Eff.callBedrockExtract])) := by
  constructor <;> intro h <;>
    (unfold extract_questions extract_questions_only_with_bedrock; rw [h]; rfl)

/-- Witness for the amended C9 at a concrete throttled environment. -/
theorem c9_amended_witness :
    extract_questions extractErrSubEnv =
      ({ interviewer_questions := [], status := "success" }, [Eff.callBedrockExtract]) :=
  (c9_amended_extraction_failure_is_success extractErrSubEnv
    (.clientError "ThrottlingException" "Rate exceeded")).1 (by decide)

/-- C3: for every environment (every combination of service outcomes,
including raised exceptions anywhere, and in particular a failing
failed-state update), process_interview_message never propagates an
exception: its result is an ok boolean, and whenever it is false the
trace contains the best-effort attempt to set the interview state to
failed. -/
theorem c3_never_propagates (env : WorkflowEnv) (id : String) (hm : Bool) :
    (process_interview_message env id hm).1 = .ok true ∨
    ((process_interview_message env id hm).1 = .ok false ∧
      Eff.recUpdate "failed" ∈ (process_interview_message env id hm).2) := by
  unfold process_interview_message
  rcases hb : process_interview_body env id hm with ⟨r, t⟩
  cases r with
  | ok b =>
    have := body_ok_true env id hm b t hb
    subst this
    left
    rfl
  | error e =>
    right
    rcases hu : update_interview_state env "failed" with ⟨bu, tu⟩
    have htu : tu = [Eff.recUpdate "failed"] := by
      have := update_state_trace env "failed"
      rw [hu] at this
      exact this
    subst htu
    exact ⟨rfl, by simp⟩

/-- Witness for C3 at a concrete environment whose failed-state update
itself raises. -/
theorem c3_never_propagates_witness :
    (process_interview_message raisingUpdateEnv "not-a-uuid" false).1 = .ok true ∨
    ((process_interview_message raisingUpdateEnv "not-a-uuid" false).1 = .ok false ∧
      Eff.recUpdate "failed" ∈ (process_interview_message raisingUpdateEnv "not-a-uuid" false).2) :=
  c3_never_propagates raisingUpdateEnv "not-a-uuid" false

/-- C4: whenever the run reaches the processing-state update and that
update fails (its boto call raises, which update_interview_state reports
as false), the workflow returns false and performs no media, transcription,
extraction or batch-write call: the trace is exactly the record load, the
failed processing update, and the best-effort failed update. -/
theorem c4_processing_update_failure_aborts (env : WorkflowEnv) (id : String) (hm : Bool)
    (itv itv2 : InterviewRecord) (s : String) (e : PyExc)
    (hv : validate_uuid id "Interview ID" = .ok s)
    (hg : env.get_item = .ok (some itv))
    (hvd : validate_interview_data itv = .ok itv2)
    (hu : env.update_item "processing" = .error e) :
    process_interview_message env id hm =
      (.ok false, [Eff.recGet, Eff.recUpdate "processing", Eff.recUpdate "failed"]) ∧
    (∀ uri, Eff.callVideo uri ∉ (process_interview_message env id hm).2) ∧
    Eff.callTranscribe ∉ (process_interview_message env id hm).2 ∧
    Eff.callBedrockExtract ∉ (process_interview_message env id hm).2 ∧
    (∀ n, Eff.recBatchWrite n ∉ (process_interview_message env id hm).2) := by
  have hup : update_interview_state env "processing" = (false, [Eff.recUpdate "processing"]) := by
    unfold update_interview_state
    rw [hu]
  have heq : process_interview_message env id hm =
      (.ok false, [Eff.recGet, Eff.recUpdate "processing", Eff.recUpdate "failed"]) := by
    unfold process_interview_message process_interview_body after_load
    rw [hv, hg]
    dsimp only
    rw [hvd, hup]
    dsimp only
    rcases hf : update_interview_state env "failed" with ⟨bu, tu⟩
    have htu : tu = [Eff.recUpdate "failed"] := by
      have := update_state_trace env "failed"
      rw [hf] at this
      exact this
    subst htu
    rfl
  refine ⟨heq, ?_, ?_, ?_, ?_⟩
  · intro uri
    rw [heq]
    simp
  · rw [heq]
    simp
  · rw [heq]
    simp
  · intro n
    rw [heq]
    simp

/-- Witness for C4 at a concrete environment whose processing update
raises. -/
theorem c4_processing_update_failure_aborts_witness :
    process_interview_message processingFailsEnv "11111111-1111-1111-1111-111111111111" true =
      (.ok false, [Eff.recGet, Eff.recUpdate "processing", Eff.recUpdate "failed"]) ∧
    (∀ uri, Eff.callVideo uri ∉
      (process_interview_message processingFailsEnv "11111111-1111-1111-1111-111111111111" true).2) ∧
    Eff.callTranscribe ∉
      (process_interview_message processingFailsEnv "11111111-1111-1111-1111-111111111111" true).2 ∧
    Eff.callBedrockExtract ∉
      (process_interview_message processingFailsEnv "11111111-1111-1111-1111-111111111111" true).2 ∧
    (∀ n, Eff.recBatchWrite n ∉
      (process_interview_message processingFailsEnv "11111111-1111-1111-1111-111111111111" true).2) :=
  c4_processing_update_failure_aborts processingFailsEnv "11111111-1111-1111-1111-111111111111" true
    scenarioInterview scenarioInterview "11111111-1111-1111-1111-111111111111"
    (.clientError "InternalServerError" "boom") (by decide) (by decide) (by decide) (by decide)

/-- C6: the claim states the sub-operation is retried as a unit up to two
extra attempts.  The sub-operation catches every exception internally and
signals failure by returning None, so the retry wrapper never sees an
exception: every run performs exactly one underlying attempt and never
sleeps, for every environment.  On the concrete retry-scenario input
(attempts 0 and 1 failing with a retryable throttling ClientError,
attempt 2 succeeding with one question) the decorated operation stops
after one attempt with an overall failure, instead of the three attempts
and overall success the claim describes. -/
theorem c6_sub_operation_never_retried :
    (∀ (env : WorkflowEnv) (vp : String),
      (process_video_and_extract_questions env vp).2.1 = 1 ∧
      ∀ d, Eff.sleep d ∉ (process_video_and_extract_questions env vp).2.2) ∧
    process_video_and_extract_questions retryScenarioEnv "videos/x/y/sample.mp4" =
      (.ok none, 1, [Eff.callVideo "s3://test-bucket/videos/x/y/sample.mp4", Eff.callTranscribe]) ∧
    (sub_op_inner retryScenarioEnv.bucket (retryScenarioEnv.sub 2) "videos/x/y/sample.mp4").1 =
      some [{ question := "Tell me about yourself?", answer := "A professional answer.", context := "" }] := by
  refine ⟨?_, by decide, by decide⟩
  intro env vp
  rw [pv_one_attempt]
  exact ⟨rfl, fun d => sub_op_inner_no_sleep env.bucket (env.sub 0) vp d⟩


/-- C5 counterexample: a wrapped operation that keeps raising a generic
ValueError exhausts its retries, and the final raise is the original
ValueError unchanged, not a classified service error as the claim
states. -/
theorem c5_counterexample :
    retry_with_backoff (pureOp fun _ => (Except.error (PyExc.valueError "boom") : Except PyExc Bool)) 2 1 60 =
      (.error (.valueError "boom"), 3, [Eff.sleep 1, Eff.sleep 2]) ∧
    ∀ msg, PyExc.valueError "boom" ≠ PyExc.awsServiceError msg := by
  constructor
  · have h := retry_go_exhaust (fun _ => (Except.error (PyExc.valueError "boom") : Except PyExc Bool)) 1 60 2 2 0
        (PyExc.valueError "boom")
        (fun j hj => ⟨PyExc.valueError "boom", rfl, by simp [retryableErr, PyExc.isBoto]⟩)
        rfl (by simp [retryableErr, PyExc.isBoto])
    unfold retry_with_backoff
    rw [h]
    simp only [PyExc.isBoto, Bool.false_eq_true, if_false]
    norm_num [backoffDelay, List.range_succ, min_def]
  · intro msg h
    cases h

/-- C5 amended: on a first attempt raising a recognized non-retryable AWS
error the wrapper performs exactly one attempt, sleeps never, and raises
the classified service error; retryable AWS errors and generic exceptions
are retried up to maxRetries extra attempts with the backoff delay
min(base times two to the attempt, maxDelay) between attempts; exhausting
the retries raises the classified service error carrying the retry count
when the final failure is a recognized AWS error, and re-raises the
original exception unchanged when it is generic. -/
theorem c5_amended_retry_policy :
    (∀ (α : Type) (f : Nat → Except PyExc α) (b m : ℚ) (maxR : Nat) (e : PyExc),
      f 0 = .error e → e.isBoto = true → e.botoCode ∈ nonRetryableCodes →
      retry_with_backoff (pureOp f) maxR b m = (.error (nonRetryableRaise e), 1, [])) ∧
    (∀ (α : Type) (f : Nat → Except PyExc α) (b m : ℚ) (maxR k : Nat) (v : α), k ≤ maxR →
      (∀ j, j < k → ∃ e, f j = .error e ∧ retryableErr e) → f k = .ok v →
      retry_with_backoff (pureOp f) maxR b m =
        (.ok v, k + 1, (List.range k).map fun j => Eff.sleep (min (b * 2 ^ j) m))) ∧
    (∀ (α : Type) (f : Nat → Except PyExc α) (b m : ℚ) (maxR : Nat) (e : PyExc),
      (∀ j, j < maxR → ∃ e', f j = .error e' ∧ retryableErr e') →
      f maxR = .error e → retryableErr e →
      retry_with_backoff (pureOp f) maxR b m =
        ((if e.isBoto then Except.error (exhaustedRaise maxR e) else Except.error e), maxR + 1,
          (List.range maxR).map fun j => Eff.sleep (min (b * 2 ^ j) m))) := by
  refine ⟨?_, ?_, ?_⟩
  · intro α f b m maxR e h hb hc
    exact retry_nonretryable_first f b m maxR e h hb hc
  · intro α f b m maxR k v hk hfail hok
    unfold retry_with_backoff
    have h := retry_go_ok_after f b m maxR v k maxR 0 hk
      (fun j hj => by simpa using hfail j hj) (by simpa using hok)
    rw [h]
    simp [backoffDelay]
  · intro α f b m maxR e hfail hlast hre
    unfold retry_with_backoff
    have h := retry_go_exhaust f b m maxR maxR 0 e
      (fun j hj => by simpa using hfail j hj) (by simpa using hlast) hre
    rw [h]
    simp [backoffDelay]

/-- Witness for the amended C5: a first-attempt AccessDenied ClientError
gives one attempt, no sleep, and the classified error. -/
theorem c5_amended_retry_policy_witness :
    retry_with_backoff
      (pureOp fun _ => (Except.error (PyExc.clientError "AccessDenied" "denied") : Except PyExc Bool)) 2 1 60 =
      (.error (nonRetryableRaise (.clientError "AccessDenied" "denied")), 1, []) :=
  c5_amended_retry_policy.1 Bool (fun _ => .error (.clientError "AccessDenied" "denied")) 1 60 2
    (.clientError "AccessDenied" "denied") rfl rfl (by decide)

/-- C7 counterexample: a message body decoding to the one-element JSON
array containing the string interview_id is unparseable in the sense of
the spec (the payload is not an object), yet it is not deleted: the
Python membership test accepts it, subscripting it raises TypeError
outside the try around the callback, and the message is left for
redelivery while the loop sleeps and continues; the callback never
runs. -/
theorem c7_counterexample :
    ¬ specParsesToObjWithKey arrayBodyParse arrayBody ∧
    (arrayBodyParse arrayBody).isSome = true ∧
    loop_iteration arrayBodyParse (.ok true) arrayBody = [Eff.loopSleep] ∧
    Eff.qDelete ∉ loop_iteration arrayBodyParse (.ok true) arrayBody ∧
    Eff.cbCall ∉ loop_iteration arrayBodyParse (.ok true) arrayBody := by
  refine ⟨?_, by decide, by decide, by decide, by decide⟩
  rintro ⟨kvs, hk, -⟩
  simp [arrayBodyParse, arrayBody] at hk

/-- C7 amended: with unparseable taken operationally (parse_message_body
returns none: a JSON decode failure, a payload whose membership test for
interview_id fails, or one on which the test raises), an unparseable
message is deleted immediately with no callback invocation; a message
whose payload is an object containing interview_id runs the callback and
is deleted exactly when the callback returns true (false or a raised
exception leave it for redelivery); a payload that contains interview_id
but is not an object raises on subscripting, is not deleted, and the
loop-level handler sleeps and continues.  The iteration is total, so no
callback outcome terminates the loop. -/
theorem c7_amended_loop_handling (jp : String → Option PyJson) (cb : Except PyExc Bool)
    (body : String) :
    (parse_message_body jp body = none → loop_iteration jp cb body = [Eff.qDelete]) ∧
    (∀ kvs, parse_message_body jp body = some (.obj kvs) →
      ((Eff.qDelete ∈ loop_iteration jp cb body ↔ cb = .ok true) ∧
        Eff.cbCall ∈ loop_iteration jp cb body)) ∧
    (∀ v, parse_message_body jp body = some v → (∀ kvs, v ≠ PyJson.obj kvs) →
      loop_iteration jp cb body = [Eff.loopSleep] ∧
        Eff.qDelete ∉ loop_iteration jp cb body) := by
  refine ⟨?_, ?_, ?_⟩
  · intro h
    unfold loop_iteration process_message_in_loop
    rw [h]
  · intro kvs h
    have hmem := parse_some_member jp body _ h
    have hany : kvs.any (fun p => p.1 = "interview_id") = true := by
      simpa [PyJson.hasMember] using hmem
    obtain ⟨v, hv⟩ := lookup_of_any_key "interview_id" kvs hany
    have hsub : (PyJson.obj kvs).subscript "interview_id" = .ok v := by
      simp [PyJson.subscript, hv]
    unfold loop_iteration process_message_in_loop
    rw [h]
    dsimp only
    rw [hsub]
    dsimp only
    rcases cb with e | b
    · simp
    · rcases b <;> simp
  · intro v h hne
    unfold loop_iteration process_message_in_loop
    rw [h]
    dsimp only
    rcases v with - | b | n | s | xs | kvs
    · exact ⟨rfl, by simp [PyJson.subscript]⟩
    · exact ⟨rfl, by simp [PyJson.subscript]⟩
    · exact ⟨rfl, by simp [PyJson.subscript]⟩
    · exact ⟨rfl, by simp [PyJson.subscript]⟩
    · exact ⟨rfl, by simp [PyJson.subscript]⟩
    · exact absurd rfl (hne kvs)

/-- Witness for the amended C7 at a concrete object payload and a
succeeding callback. -/
theorem c7_amended_loop_handling_witness :
    (Eff.qDelete ∈ loop_iteration objBodyParse (.ok true) objBody ↔
      (Except.ok true : Except PyExc Bool) = .ok true) ∧
    Eff.cbCall ∈ loop_iteration objBodyParse (.ok true) objBody :=
  (c7_amended_loop_handling objBodyParse (.ok true) objBody).2.1
    [("interview_id", .str "11111111-1111-1111-1111-111111111111")] (by rfl)

/-- C8: for every run reaching the transcription poll loop in which the
job reports FAILED (after any number of in-progress polls within the
wait budget), the workflow returns false, the final state update written
is failed, and no question batch is written. -/
theorem c8_transcription_failed_path (env : WorkflowEnv) (id : String) (hm : Bool)
    (itv itv2 : InterviewRecord) (s job audio : String) (k : Nat)
    (hv : validate_uuid id "Interview ID" = .ok s)
    (hg : env.get_item = .ok (some itv))
    (hvd : validate_interview_data itv = .ok itv2)
    (hup : env.update_item "processing" = .ok ())
    (huf : env.update_item "failed" = .ok ())
    (hvs : (env.sub 0).video_status = "success")
    (hau : (env.sub 0).video_audio_s3_uri = some audio)
    (hts : (env.sub 0).transcribe_start = .ok job)
    (hk : k < (env.sub 0).poll_fuel)
    (hprev : ∀ j, j < k → ∃ st, (env.sub 0).poll j = .ok st ∧ st ≠ "COMPLETED" ∧ st ≠ "FAILED")
    (hlast : (env.sub 0).poll k = .ok "FAILED") :
    (process_interview_message env id hm).1 = .ok false ∧
    finalStateUpdate (process_interview_message env id hm).2 = some "failed" ∧
    (∀ n, Eff.recBatchWrite n ∉ (process_interview_message env id hm).2) := by
  have hwait : wait_for_job_completion (env.sub 0) (env.sub 0).poll_fuel 0 =
      .error (.otherError "Transcription job failed") :=
    wait_fails_on_failed (env.sub 0) k 0 (env.sub 0).poll_fuel hk
      (fun j hj => by simpa using hprev j hj) (by simpa using hlast)
  have htr : transcribe_audio (env.sub 0) =
      ({ status := "error", full_transcript := none }, [Eff.callTranscribe]) := by
    unfold transcribe_audio
    rw [hts, hwait]
  obtain ⟨uri, hsub⟩ : ∃ uri, sub_op_inner env.bucket (env.sub 0) (itv.video_path.getD "") =
      (none, [Eff.callVideo uri, Eff.callTranscribe]) :=
    ⟨if pyStartsWith (itv.video_path.getD "") "videos/" = true
        then "s3://" ++ env.bucket ++ "/" ++ itv.video_path.getD "" else itv.video_path.getD "",
     by unfold sub_op_inner; simp [hvs, hau, htr]⟩
  have hpv : process_video_and_extract_questions env (itv.video_path.getD "") =
      (.ok none, 1, [Eff.callVideo uri, Eff.callTranscribe]) := by
    rw [pv_one_attempt, hsub]
  have hupd : update_interview_state env "processing" = (true, [Eff.recUpdate "processing"]) := by
    unfold update_interview_state
    rw [hup]
  have hfld : update_interview_state env "failed" = (true, [Eff.recUpdate "failed"]) := by
    unfold update_interview_state
    rw [huf]
  have heq : process_interview_message env id hm =
      (.ok false, Eff.recGet :: Eff.recUpdate "processing" ::
        ((if hm = true then [Eff.qVisibility 1800] else []) ++
          [Eff.callVideo uri, Eff.callTranscribe, Eff.recUpdate "failed"])) := by
    unfold process_interview_message process_interview_body after_load after_processing_update
    rw [hv, hg]
    dsimp only
    rw [hvd, hupd]
    dsimp only
    rw [hpv, hfld, change_visibility_trace]
    cases hm <;> simp
  refine ⟨by rw [heq], ?_, ?_⟩
  · rw [heq]
    cases hm <;> simp [finalStateUpdate, stateUpdates]
  · intro n
    rw [heq]
    cases hm <;> simp

/-- Witness for C8 at a concrete environment whose first poll reports
FAILED. -/
theorem c8_transcription_failed_path_witness :
    (process_interview_message failedPollEnv "11111111-1111-1111-1111-111111111111" true).1 = .ok false ∧
    finalStateUpdate
      (process_interview_message failedPollEnv "11111111-1111-1111-1111-111111111111" true).2 =
      some "failed" ∧
    (∀ n, Eff.recBatchWrite n ∉
      (process_interview_message failedPollEnv "11111111-1111-1111-1111-111111111111" true).2) :=
  c8_transcription_failed_path failedPollEnv "11111111-1111-1111-1111-111111111111" true
    scenarioInterview scenarioInterview "11111111-1111-1111-1111-111111111111"
    "video-transcription-job1" "s3://test-bucket/audio/sample_audio.wav" 0
    (by decide) (by decide) (by decide) (by decide) (by decide) (by decide) (by decide)
    (by decide) (by decide) (fun j hj => absurd hj (by omega)) (by decide)

/-- C10: every question dictionary kept by the database-formatting step
has a non-whitespace question text (dict and bare-string items with blank
questions are dropped, other shapes always); every put request built by
the batch-save step takes its question text from a source dictionary that
does have the question key (items lacking it are skipped); and therefore
every put request built from formatted workflow output carries a
non-whitespace question text. -/
theorem c10_persisted_question_nonempty :
    (∀ (raw : List RawQuestion) (fq : FormattedQ),
      fq ∈ format_questions_for_database raw → pyStrip fq.question ≠ "") ∧
    (∀ (iid uid : String) (qs : List (List (String × String))) (item : QuestionPutItem),
      item ∈ build_put_items iid uid qs →
      ∃ q, q ∈ qs ∧ q.lookup "question" = some item.question) ∧
    (∀ (iid uid : String) (raw : List RawQuestion) (item : QuestionPutItem),
      item ∈ build_put_items iid uid ((format_questions_for_database raw).map fqToDict) →
      pyStrip item.question ≠ "") := by
  refine ⟨format_questions_nonempty, build_put_items_from_key, ?_⟩
  intro iid uid raw item h
  obtain ⟨q, hq, hlook⟩ := build_put_items_from_key iid uid _ item h
  rw [List.mem_map] at hq
  obtain ⟨fq, hfq, rfl⟩ := hq
  have hl : List.lookup "question" (fqToDict fq) = some fq.question := by
    simp [fqToDict, List.lookup]
  rw [hl] at hlook
  simp only [Option.some.injEq] at hlook
  rw [← hlook]
  exact format_questions_nonempty raw fq hfq

/-- Witness for C10 at a concrete raw list and built item. -/
theorem c10_persisted_question_nonempty_witness :
    pyStrip
      { interview_id := "i", user_id := "u", question := "Tell me about yourself?",
        context := none, answer := none,
        question_context := none : QuestionPutItem }.question ≠ "" :=
  c10_persisted_question_nonempty.2.2 "i" "u" [RawQuestion.str "Tell me about yourself?"]
    { interview_id := "i", user_id := "u", question := "Tell me about yourself?",
      context := none, answer := none, question_context := none }
    (by decide)

end AIInterviews
